import Mathlib

/-!
Verification development for the fetch/cache/merge/alert core of the
Complete_Seperate football-tracking repository.

Shallow embedding conventions:
- Python `datetime.now()` timestamps are modelled as natural-number seconds
  passed explicitly to each stateful operation.
- Python numbers (int/float) are modelled as rationals where fractional
  values occur, naturals for counters.
- Python dicts are modelled as association lists with first-match lookup;
  `d[k] = v` is cons at the front, `{**a, **b}` is `b ++ a` for lookup
  purposes (b wins on collisions).
- Python exceptions are modelled with `Except` / explicit result tags.
-/

namespace NetRes

/-- Circuit breaker states, from `CircuitBreaker` in src/network_resilience.py
(CLOSED / OPEN / HALF_OPEN string constants). -/
inductive CBStatus where
  | closed
  | opened
  | halfOpen
deriving DecidableEq, Repr

/-- Constructor parameters of `CircuitBreaker.__init__` with their Python
defaults (failure_threshold=5, recovery_timeout=30, half_open_max_calls=3). -/
structure CBConfig where
  failure_threshold : Nat := 5
  recovery_timeout : Nat := 30
  half_open_max_calls : Nat := 3
deriving DecidableEq, Repr

/-- Mutable state initialized in `CircuitBreaker.__init__`. -/
structure CBState where
  state : CBStatus := CBStatus.closed
  failure_count : Nat := 0
  last_failure_time : Option Nat := none
  half_open_calls : Nat := 0
  total_calls : Nat := 0
  successful_calls : Nat := 0
  failed_calls : Nat := 0
deriving DecidableEq, Repr

/-- The state right after `__init__`. -/
def CBState.init : CBState := {}

/-- Outcome of awaiting the wrapped function inside `CircuitBreaker.call`:
either it returns a result or it raises. -/
inductive FuncOutcome where
  | success
  | failure
deriving DecidableEq, Repr

/-- How `CircuitBreaker.call` terminates: `rejected` means it raised
`CircuitBreakerError` without invoking the wrapped function, `returned`
means the wrapped function was invoked and its result returned, `raised`
means the wrapped function was invoked and its exception re-raised. -/
inductive CallResult where
  | rejected
  | returned
  | raised
deriving DecidableEq, Repr

/-- Whether the wrapped function was invoked on this call path. -/
def CallResult.invoked : CallResult → Bool
  | CallResult.rejected => false
  | CallResult.returned => true
  | CallResult.raised => true

/-- Body of `CircuitBreaker.call` after the OPEN-state check (the
HALF_OPEN capacity check, the invocation, and the success/failure
bookkeeping), lines 130-176 of src/network_resilience.py. -/
def cbProceed (cfg : CBConfig) (s : CBState) (now : Nat) (outcome : FuncOutcome) :
    CBState × CallResult :=
  if s.state = CBStatus.halfOpen ∧ s.half_open_calls ≥ cfg.half_open_max_calls then
    ({ s with failed_calls := s.failed_calls + 1 }, CallResult.rejected)
  else
    let s1 :=
      if s.state = CBStatus.halfOpen then
        { s with half_open_calls := s.half_open_calls + 1 }
      else s
    match outcome with
    | FuncOutcome.success =>
      let s2 := { s1 with successful_calls := s1.successful_calls + 1 }
      let s3 :=
        if s2.state = CBStatus.halfOpen ∧ s2.half_open_calls ≥ cfg.half_open_max_calls then
          { s2 with state := CBStatus.closed, failure_count := 0 }
        else s2
      let s4 :=
        if s3.state = CBStatus.closed then { s3 with failure_count := 0 } else s3
      (s4, CallResult.returned)
    | FuncOutcome.failure =>
      let s2 := { s1 with failed_calls := s1.failed_calls + 1,
                          failure_count := s1.failure_count + 1,
                          last_failure_time := some now }
      let s3 :=
        if s2.state = CBStatus.closed ∧ s2.failure_count ≥ cfg.failure_threshold then
          { s2 with state := CBStatus.opened }
        else s2
      let s4 :=
        if s3.state = CBStatus.halfOpen then { s3 with state := CBStatus.opened } else s3
      (s4, CallResult.raised)

/-- `CircuitBreaker.call` (src/network_resilience.py lines 99-176).
`now` is the current wall-clock second; `outcome` is what awaiting the
wrapped function would do if invoked.  The Python truthiness test
`if (self.last_failure_time and ...)` is the `match` on the option. -/
def cbCall (cfg : CBConfig) (s0 : CBState) (now : Nat) (outcome : FuncOutcome) :
    CBState × CallResult :=
  let s := { s0 with total_calls := s0.total_calls + 1 }
  if s.state = CBStatus.opened then
    match s.last_failure_time with
    | some t =>
      if now - t > cfg.recovery_timeout then
        cbProceed cfg { s with state := CBStatus.halfOpen, half_open_calls := 0 } now outcome
      else
        ({ s with failed_calls := s.failed_calls + 1 }, CallResult.rejected)
    | none =>
      ({ s with failed_calls := s.failed_calls + 1 }, CallResult.rejected)
  else
    cbProceed cfg s now outcome

/-- Fold a sequence of calls (time, outcome) through the breaker,
keeping only the state. -/
def cbRun (cfg : CBConfig) (s : CBState) (calls : List (Nat × FuncOutcome)) : CBState :=
  calls.foldl (fun st c => (cbCall cfg st c.1 c.2).1) s

/-- Observability-counter invariant of a breaker state: every completed
invocation counted in `total_calls` was tallied as a success or a failure. -/
def CBInv (s : CBState) : Prop :=
  s.total_calls = s.successful_calls + s.failed_calls

/-- What one HTTP attempt inside `_fetch_with_retry` does: returns a parsed
JSON body, raises an exception on `retry_config.retry_exceptions` (the
allow-list `aiohttp.ClientError / asyncio.TimeoutError / ConnectionError`),
or raises any other exception.  Bodies are abstracted to naturals. -/
inductive FetchOutcome where
  | ok (v : Nat)
  | retriable
  | nonRetriable
deriving DecidableEq, Repr

/-- `RetryConfig` dataclass (src/network_resilience.py lines 178-190) with
its Python defaults.  The `retry_exceptions` list is abstracted into the
`FetchOutcome` tag of each attempt. -/
structure RetryConfig where
  max_retries : Nat := 3
  initial_backoff : Rat := 1
  max_backoff : Rat := 30
  backoff_factor : Rat := 2
  jitter : Bool := true
deriving DecidableEq, Repr

/-- How `_fetch_with_retry` terminates, together with how many HTTP attempts
were made in total: a parsed body returned, the last allow-listed exception
re-raised after the retry budget is exhausted, or a non-allow-listed
exception re-raised immediately. -/
inductive RetryResult where
  | ok (v : Nat) (attempts : Nat)
  | raisedRetriable (attempts : Nat)
  | raisedNonRetriable (attempts : Nat)
deriving DecidableEq, Repr

/-- Total number of HTTP attempts a retry run made. -/
def RetryResult.attempts : RetryResult → Nat
  | RetryResult.ok _ a => a
  | RetryResult.raisedRetriable a => a
  | RetryResult.raisedNonRetriable a => a

/-- The `while attempt <= retry_config.max_retries` loop of
`_fetch_with_retry` (src/network_resilience.py lines 256-315).  `oracle n`
is what the n-th request attempt does; `backoff` mirrors the
`min(backoff * factor, max_backoff)` update (jitter and sleeping are wall
clock effects with no influence on control flow).  The fuel argument only
realizes the loop's dead trailing `raise last_exception`; the entry point
supplies enough fuel that it is never consumed. -/
def fetchLoop (cfg : RetryConfig) (oracle : Nat → FetchOutcome) :
    Nat → Nat → Rat → RetryResult
  | 0, attempt, _ => RetryResult.raisedRetriable attempt
  | fuel + 1, attempt, backoff =>
    if attempt ≤ cfg.max_retries then
      let a := attempt + 1
      match oracle a with
      | FetchOutcome.ok v => RetryResult.ok v a
      | FetchOutcome.nonRetriable => RetryResult.raisedNonRetriable a
      | FetchOutcome.retriable =>
        if a > cfg.max_retries then
          RetryResult.raisedRetriable a
        else
          fetchLoop cfg oracle fuel a (min (backoff * cfg.backoff_factor) cfg.max_backoff)
    else
      RetryResult.raisedRetriable attempt

/-- `_fetch_with_retry` entry: `attempt` starts at 0 (the value
`resilient_fetch` passes in) and `backoff` at `initial_backoff`. -/
def fetch_with_retry (cfg : RetryConfig) (oracle : Nat → FetchOutcome) : RetryResult :=
  fetchLoop cfg oracle (cfg.max_retries + 1) 0 cfg.initial_backoff

end NetRes

namespace JModel

/-- JSON-like values as they flow through merge_logic.py and the alert
rules: Python None / bool / str / numbers (int and float collapsed into
rationals) / list / dict with string keys.  Dicts are association lists
whose FIRST binding wins on lookup. -/
inductive JValue where
  | null
  | bool (b : Bool)
  | str (s : String)
  | num (q : Rat)
  | arr (elems : List JValue)
  | obj (fields : List (String × JValue))

/-- A Python dict with string keys. -/
abbrev JObj := List (String × JValue)

/-- Numeric view used by Python `==`: bools compare as 0/1, ints and floats
share one numeric domain. -/
def jnum : JValue → Option Rat
  | JValue.num q => some q
  | JValue.bool b => some (if b then 1 else 0)
  | _ => none

mutual

/-- Python `==` on modelled JSON values. -/
def jvalEq : JValue → JValue → Bool
  | JValue.null, JValue.null => true
  | JValue.str a, JValue.str b => a == b
  | JValue.arr a, JValue.arr b => jvalEqList a b
  | JValue.obj a, JValue.obj b => jvalEqObj a b
  | a, b =>
    match jnum a, jnum b with
    | some x, some y => x == y
    | _, _ => false

def jvalEqList : List JValue → List JValue → Bool
  | [], [] => true
  | a :: as_, b :: bs => jvalEq a b && jvalEqList as_ bs
  | _, _ => false

def jvalEqObj : List (String × JValue) → List (String × JValue) → Bool
  | [], [] => true
  | a :: as_, b :: bs => (a.1 == b.1) && jvalEq a.2 b.2 && jvalEqObj as_ bs
  | _, _ => false

end

/-- `d.get(k)` on a string-keyed dict: first binding wins. -/
def jget : JObj → String → Option JValue
  | [], _ => none
  | (k1, v) :: rest, k => if k1 = k then some v else jget rest k

/-- Python truthiness of a modelled JSON value. -/
def jTruthy : JValue → Bool
  | JValue.null => false
  | JValue.bool b => b
  | JValue.str s => !s.isEmpty
  | JValue.num q => q != 0
  | JValue.arr l => !l.isEmpty
  | JValue.obj l => !l.isEmpty

/-- Whether a Python value of this shape is hashable: lists and dicts are
not, and probing a dict with them (membership or .get) raises TypeError. -/
def jhashable : JValue → Bool
  | JValue.arr _ => false
  | JValue.obj _ => false
  | _ => true

/-- `d.get(k)` / `k in d` on a Python dict with arbitrary (modelled) keys —
used for the team/competition caches and the country map, whose key types
are unconstrained in the source.  An unhashable probe key raises TypeError;
otherwise the first `==`-matching binding (dicts cannot store unhashable
keys) is returned. -/
def pyGet (pairs : List (JValue × JValue)) (k : JValue) :
    Except Unit (Option JValue) :=
  if jhashable k then
    Except.ok ((pairs.find? (fun p => jvalEq p.1 k)).map (fun p => p.2))
  else Except.error ()

/-- `unwrap_results` (src/merge_logic.py lines 51-59): extract the first
item of a "results" list, pass a bare object through, default to an empty
dict when the key is missing (a Python `None` lookup result covers both an
absent key and an explicit null). -/
def unwrap_results (obj : JObj) : JValue :=
  match jget obj "results" with
  | none => JValue.obj []
  | some JValue.null => JValue.obj []
  | some (JValue.arr []) => JValue.obj []
  | some (JValue.arr (x :: _)) => x
  | some v => v

/-- `extract_team_name` (src/merge_logic.py lines 62-64): `team_obj.get("name",
"Unknown Team")`; a non-dict argument raises (AttributeError), modelled as
`Except.error`. -/
def extract_team_name (team_obj : JValue) : Except Unit JValue :=
  match team_obj with
  | JValue.obj o => Except.ok ((jget o "name").getD (JValue.str "Unknown Team"))
  | _ => Except.error ()

/-- `extract_competition_info` (src/merge_logic.py lines 66-74). -/
def extract_competition_info (comp_obj : JValue) : Except Unit (JValue × JValue) :=
  match comp_obj with
  | JValue.obj o =>
    Except.ok ((jget o "name").getD (JValue.str "Unknown Competition"),
               (jget o "country_id").getD JValue.null)
  | _ => Except.error ()

/-- `v.get(k, default)` where `v` must be a dict (otherwise Python raises
AttributeError, modelled as `Except.error`). -/
def pyDictGet (v : JValue) (k : String) (default : JValue) : Except Unit JValue :=
  match v with
  | JValue.obj o => Except.ok ((jget o k).getD default)
  | _ => Except.error ()

/-- `format_match_odds` (src/merge_logic.py lines 76-88): pick the four
market arrays of odds type "2" out of the nested results envelope. -/
def format_match_odds (odds_obj : JObj) : Except Unit JValue := do
  let results := (jget odds_obj "results").getD (JValue.obj [])
  let two ← pyDictGet results "2" (JValue.obj [])
  let asia ← pyDictGet two "asia" (JValue.arr [])
  let eu ← pyDictGet two "eu" (JValue.arr [])
  let bs ← pyDictGet two "bs" (JValue.arr [])
  let cr ← pyDictGet two "cr" (JValue.arr [])
  return JValue.obj [("asia", asia), ("eu", eu), ("bs", bs), ("cr", cr)]

/-- `get_status_description` (src/merge_logic.py lines 90-96): the fixed
lookup table `{1, 2, 3}.get(status_id, "Unknown status")`, keyed by Python
`==` against the int keys.  A list- or dict-valued status code is
unhashable, so the dict lookup raises TypeError. -/
def get_status_description (status_id : JValue) : Except Unit String :=
  if jhashable status_id then
    Except.ok
      (if jvalEq status_id (JValue.num 1) then "Not started"
       else if jvalEq status_id (JValue.num 2) then "Live"
       else if jvalEq status_id (JValue.num 3) then "Finished"
       else "Unknown status")
  else Except.error ()

/-- The record state after src/merge_logic.py line 124: the shallow merge
`merged = {**det, **live}` (for lookups: live bindings win, hence live first)
followed by the explicit `merged["id"] = live.get("id", "unknown")` and
`merged["competition_id"] = comp_id` stamps (assignments cons at the front). -/
def base_stamp (live det : JObj) (comp_id : JValue) : JObj :=
  ("competition_id", comp_id) ::
    ("id", (jget live "id").getD (JValue.str "unknown")) :: (live ++ det)

/-- `merge_match_data` (src/merge_logic.py lines 100-160).  The fallible
cache probes and shape accesses are sequenced as in the source (the
`home_id not in team_cache` membership test and the subsequent `.get`
raise at the same point for unhashable ids); all modelled exceptions are
bare `Except.error ()`. -/
def merge_match_data (live detail odds : JObj)
    (team_cache competition_cache country_map : List (JValue × JValue))
    (home_id away_id comp_id : JValue) : Except Unit JObj :=
  match unwrap_results detail with
  | JValue.obj det =>
    match pyGet team_cache home_id with
    | Except.error e => Except.error e
    | Except.ok ho =>
      match extract_team_name (ho.getD (JValue.obj [])) with
      | Except.error e => Except.error e
      | Except.ok home_team =>
        match pyGet team_cache away_id with
        | Except.error e => Except.error e
        | Except.ok ao =>
          match extract_team_name (ao.getD (JValue.obj [])) with
          | Except.error e => Except.error e
          | Except.ok away_team =>
            match pyGet competition_cache comp_id with
            | Except.error e => Except.error e
            | Except.ok co =>
              match extract_competition_info (co.getD (JValue.obj [])) with
              | Except.error e => Except.error e
              | Except.ok ci =>
                match pyGet country_map ci.2 with
                | Except.error e => Except.error e
                | Except.ok cv =>
                  match format_match_odds odds with
                  | Except.error e => Except.error e
                  | Except.ok fodds =>
                    let m6 := ("odds", fodds) ::
                      ("country", cv.getD (JValue.str "Unknown Country")) ::
                      ("competition", ci.1) ::
                      ("away_team", away_team) ::
                      ("home_team", home_team) :: base_stamp live det comp_id
                    match get_status_description
                        ((jget m6 "status_id").getD JValue.null) with
                    | Except.error e => Except.error e
                    | Except.ok sd => Except.ok (("status", JValue.str sd) :: m6)
  | _ => Except.error ()

end JModel

namespace OU3

open JModel

/-- The alert payload `OverUnderAlert.check` returns on firing
(src/Alerts/OU3.py lines 162-167); the constant "OU3" type tag and the
formatted detail string are derived from these two fields. -/
structure OUAlert where
  value : Rat
  threshold : Rat
deriving DecidableEq, Repr

def digitsToNatAux : List Char → Nat → Option Nat
  | [], acc => some acc
  | c :: cs, acc =>
    if c.isDigit then digitsToNatAux cs (acc * 10 + (c.toNat - 48)) else none

def digitsToNat : List Char → Option Nat
  | [] => none
  | cs => digitsToNatAux cs 0

/-- Python `int(s)` on a string: optional sign and decimal digits
(whitespace tolerance and underscore separators are out of modelled scope). -/
def pyInt (s : String) : Option Int :=
  match s.data with
  | Char.ofNat 45 :: rest => (digitsToNat rest).map (fun n => -(n : Int))
  | Char.ofNat 43 :: rest => (digitsToNat rest).map (fun n => (n : Int))
  | cs => (digitsToNat cs).map (fun n => (n : Int))

def decimalCore (cs : List Char) : Option Rat :=
  match cs.span (fun c => c ≠ Char.ofNat 46) with
  | (intPart, []) => (digitsToNat intPart).map (fun n => (n : Rat))
  | (intPart, _ :: fracPart) =>
    if fracPart.contains (Char.ofNat 46) then none
    else if intPart.isEmpty then
      (digitsToNat fracPart).map (fun n => mkRat n (10 ^ fracPart.length))
    else if fracPart.isEmpty then
      (digitsToNat intPart).map (fun n => (n : Rat))
    else
      match digitsToNat intPart, digitsToNat fracPart with
      | some x, some y => some ((x : Rat) + mkRat y (10 ^ fracPart.length))
      | _, _ => none

/-- Python `float(s)` on a decimal string: optional sign, digits, optional
dot, digits (exponents, inf/nan and whitespace are out of modelled scope). -/
def parseDecimal (s : String) : Option Rat :=
  match s.data with
  | Char.ofNat 45 :: rest => (decimalCore rest).map (fun q => -q)
  | Char.ofNat 43 :: rest => decimalCore rest
  | cs => decimalCore cs

/-- Python `float(x)`: numbers and bools convert, decimal strings parse,
everything else raises (TypeError/ValueError) — the call sites in
OU3.check wrap the conversion in try/except, so `none` models the caught
failure. -/
def pyFloat : JValue → Option Rat
  | JValue.num q => some q
  | JValue.bool b => some (if b then 1 else 0)
  | JValue.str s => parseDecimal s
  | _ => none

/-- Python `len(x)` for sized values; unsized values raise TypeError. -/
def pyLen : JValue → Except Unit Nat
  | JValue.arr l => Except.ok l.length
  | JValue.str s => Except.ok s.length
  | JValue.obj o => Except.ok o.length
  | _ => Except.error ()

/-- Python `x[i]` with a non-negative int index: list indexing, string
indexing (yielding a 1-character string); dict indexing with an int key
raises KeyError on the string-keyed dicts modelled here, other types raise
TypeError. -/
def pyIndex : JValue → Nat → Except Unit JValue
  | JValue.arr l, i =>
    match l.get? i with
    | some x => Except.ok x
    | none => Except.error ()
  | JValue.str s, i =>
    match s.toList.get? i with
    | some c => Except.ok (JValue.str (String.singleton c))
    | none => Except.error ()
  | _, _ => Except.error ()

/-- The shared `bs` extraction step of OU3.check (src/Alerts/OU3.py lines
113-121 and 126-136): `if bs_data and len(bs_data) > 0 and len(bs_data[0])
>= 4: value = float(bs_data[0][3])`, where only the float conversion is
wrapped in try/except (ValueError, TypeError) — a caught conversion failure
yields no value (`ok none`); shape errors outside it propagate. -/
def bsExtract (bs_data : JValue) : Except Unit (Option Rat) :=
  if jTruthy bs_data then
    match pyLen bs_data with
    | Except.error e => Except.error e
    | Except.ok n =>
      if n > 0 then
        match pyIndex bs_data 0 with
        | Except.error e => Except.error e
        | Except.ok first =>
          match pyLen first with
          | Except.error e => Except.error e
          | Except.ok m =>
            if m ≥ 4 then
              match pyIndex first 3 with
              | Except.error e => Except.error e
              | Except.ok x => Except.ok (pyFloat x)
            else Except.ok none
      else Except.ok none
  else Except.ok none

/-- Python `for ... in v`: lists iterate their elements, strings their
characters, dicts their keys; other values raise TypeError. -/
def pyIterate : JValue → Except Unit (List JValue)
  | JValue.arr l => Except.ok l
  | JValue.str s => Except.ok (s.toList.map (fun c => JValue.str (String.singleton c)))
  | JValue.obj o => Except.ok (o.map (fun p => JValue.str p.1))
  | _ => Except.error ()

/-- The `odds.markets` loop of OU3.check (src/Alerts/OU3.py lines 98-106):
first OVER_UNDER market whose line converts wins; conversion failures are
caught and the loop continues; a non-dict market raises. -/
def marketsLoop : List JValue → Except Unit (Option Rat)
  | [] => Except.ok none
  | JValue.obj mk :: rest =>
    if jvalEq ((jget mk "type").getD JValue.null) (JValue.str "OVER_UNDER") then
      match pyFloat ((jget mk "line").getD JValue.null) with
      | some v => Except.ok (some v)
      | none => marketsLoop rest
    else marketsLoop rest
  | _ :: _ => Except.error ()

/-- The nested `results.items()` loop of OU3.check (src/Alerts/OU3.py lines
124-136), iterating periods in insertion order. -/
def nestedLoop : List (String × JValue) → Except Unit (Option Rat)
  | [] => Except.ok none
  | (_, mv) :: rest =>
    match mv with
    | JValue.obj mk =>
      match bsExtract ((jget mk "bs").getD (JValue.arr [])) with
      | Except.error e => Except.error e
      | Except.ok (some v) => Except.ok (some v)
      | Except.ok none => nestedLoop rest
    | _ => Except.error ()

/-- The string-to-int status conversion of OU3.check (src/Alerts/OU3.py
lines 78-83): a string status is parsed with `int(...)`, returning None
(no alert) on failure; non-strings pass through unchanged. -/
def statusConvert (sv : JValue) : Option JValue :=
  match sv with
  | JValue.str s => (pyInt s).map (fun n => JValue.num (n : Rat))
  | v => some v

/-- `status_id in VALID_STATUS_IDS` with VALID_STATUS_IDS = {2, 3, 4}
(src/Alerts/OU3.py line 29), membership by Python `==`. -/
def statusLive (sid : JValue) : Bool :=
  jvalEq sid (JValue.num 2) || jvalEq sid (JValue.num 3) || jvalEq sid (JValue.num 4)

/-- The firing step (src/Alerts/OU3.py lines 158-175): fire iff
`value >= self.threshold`. -/
def fireCheck (threshold value : Rat) : Option OUAlert :=
  if value ≥ threshold then some ⟨value, threshold⟩ else none

/-- Coerce to a dict's fields, raising (AttributeError on the subsequent
`.get`) otherwise. -/
def obj_fields : JValue → Except Unit (List (String × JValue))
  | JValue.obj o => Except.ok o
  | _ => Except.error ()

/-- `OverUnderAlert.check` (src/Alerts/OU3.py lines 35-175): status gate,
then the four-stage O/U line extraction (markets, direct bs, nested
results bs, betting.over_under), then the threshold comparison. -/
def check (threshold : Rat) (m : JObj) : Except Unit (Option OUAlert) :=
  match (jget m "status_id").getD JValue.null with
  | JValue.null => Except.ok none
  | sv =>
    match statusConvert sv with
    | none => Except.ok none
    | some sid =>
      if statusLive sid then
        match obj_fields ((jget m "odds").getD (JValue.obj [])) with
        | Except.error e => Except.error e
        | Except.ok oddsObj =>
          match pyIterate ((jget oddsObj "markets").getD (JValue.arr [])) with
          | Except.error e => Except.error e
          | Except.ok mlist =>
            match marketsLoop mlist with
            | Except.error e => Except.error e
            | Except.ok (some value) => Except.ok (fireCheck threshold value)
            | Except.ok none =>
              match bsExtract ((jget oddsObj "bs").getD (JValue.arr [])) with
              | Except.error e => Except.error e
              | Except.ok (some value) => Except.ok (fireCheck threshold value)
              | Except.ok none =>
                match obj_fields ((jget oddsObj "results").getD (JValue.obj [])) with
                | Except.error e => Except.error e
                | Except.ok rObj =>
                  match nestedLoop rObj with
                  | Except.error e => Except.error e
                  | Except.ok (some value) => Except.ok (fireCheck threshold value)
                  | Except.ok none =>
                    match obj_fields ((jget m "betting").getD (JValue.obj [])) with
                    | Except.error e => Except.error e
                    | Except.ok bObj =>
                      match obj_fields ((jget bObj "over_under").getD (JValue.obj [])) with
                      | Except.error e => Except.error e
                      | Except.ok ouObj =>
                        match pyFloat ((jget ouObj "line").getD JValue.null) with
                        | some value => Except.ok (fireCheck threshold value)
                        | none => Except.ok none
      else Except.ok none

/-- A canonical merged record as the claims describe it: a status code and
the odds object produced by format_match_odds whose "bs" array holds the
over/under entries. -/
def mkCanonMatch (sv : JValue) (bs : List JValue) : JObj :=
  [("status_id", sv),
   ("odds", JValue.obj [("asia", JValue.arr []), ("eu", JValue.arr []),
     ("bs", JValue.arr bs), ("cr", JValue.arr [])])]

end OU3

namespace JModel

/-- Concrete live payload used to instantiate the merge theorems. -/
def C4live : JObj :=
  [("id", JValue.str "m1"), ("status_id", JValue.num 2), ("k", JValue.str "live")]

/-- Concrete detail payload (results envelope around one object). -/
def C4detail : JObj :=
  [("results", JValue.arr [JValue.obj [("k", JValue.str "det"), ("y", JValue.num 5)]])]

/-- The merged record for the concrete C4 inputs. -/
def C4merged : JObj :=
  (merge_match_data C4live C4detail [] [] [] []
    (JValue.str "h") (JValue.str "a") (JValue.str "c1")).toOption.getD []

/-- Concrete live payload with an unrecognized status code. -/
def C5live : JObj := [("id", JValue.str "m2"), ("status_id", JValue.num 7)]

/-- The merged record for the concrete C5 inputs (all caches empty). -/
def C5merged : JObj :=
  (merge_match_data C5live [("results", JValue.arr [JValue.obj []])] [] [] [] []
    (JValue.str "h") (JValue.str "a") (JValue.str "c")).toOption.getD []

end JModel

namespace Orchestrate

open JModel

/-- The fixed status priority list `DESIRED_STATUS_ORDER`
(src/orchestrate_complete.py line 138). -/
def DESIRED_STATUS_ORDER : List String :=
  ["1","2","3","4","5","6","7","8","9","10","11","12","13","14"]

/-- `m.get("status_id") in DESIRED_STATUS_ORDER`: Python list membership by
`==` (a missing key yields None, which is never equal to a string). -/
def statusRecognized (m : JObj) : Bool :=
  DESIRED_STATUS_ORDER.any
    (fun d => jvalEq ((jget m "status_id").getD JValue.null) (JValue.str d))

/-- The sort key of `sort_by_status` (src/orchestrate_complete.py lines
140-158): `DESIRED_STATUS_ORDER.index(status)` when the status is in the
list (`.index` returns the first matching position), else
`len(DESIRED_STATUS_ORDER)`. -/
def statusSortKey (m : JObj) : Nat :=
  if statusRecognized m then
    DESIRED_STATUS_ORDER.findIdx
      (fun d => jvalEq ((jget m "status_id").getD JValue.null) (JValue.str d))
  else DESIRED_STATUS_ORDER.length

/-- The order Python's stable `sorted(..., key=statusSortKey)` realizes on
index-decorated records: by key, ties by original position. -/
def sortRel : (Nat × JObj) → (Nat × JObj) → Prop := fun a b =>
  statusSortKey a.2 < statusSortKey b.2 ∨
    (statusSortKey a.2 = statusSortKey b.2 ∧ a.1 ≤ b.1)

instance : DecidableRel sortRel := fun a b => by
  unfold sortRel; infer_instance

instance : IsTotal (Nat × JObj) sortRel :=
  ⟨by intro a b; unfold sortRel; omega⟩

instance : IsTrans (Nat × JObj) sortRel :=
  ⟨by intro a b c; unfold sortRel; omega⟩

/-- `sorted(matches, key=...)` with the original positions kept: Python's
sorted is stable, i.e. it orders the decorated list by (key, position). -/
def sort_by_status_decorated (ms : List JObj) : List (Nat × JObj) :=
  List.insertionSort sortRel ms.enum

/-- `sort_by_status` (src/orchestrate_complete.py lines 140-158). -/
def sort_by_status (ms : List JObj) : List JObj :=
  (sort_by_status_decorated ms).map Prod.snd

end Orchestrate

namespace Alerts

/-- Python truthiness of a rule result as tested by
`if notice and match_id not in ...` (src/orchestrate_complete.py line 349):
None is falsy; the OU3 payload is a nonempty dict literal, hence truthy. -/
def noticeTruthy : Option OU3.OUAlert → Bool
  | none => false
  | some _ => true

/-- The firing condition of run_alerters (src/orchestrate_complete.py line
349): the rule result is truthy AND the match id is not in the rule's
seen-set. -/
def shouldFire (seen : Finset String) (notice : Option OU3.OUAlert) (mid : String) : Bool :=
  noticeTruthy notice && decide (mid ∉ seen)

/-- `alerter.seen_ids[file_base_id].add(match_id)` followed by
`alerter._save_seen(file_base_id)` (src/orchestrate_complete.py lines
354-356, src/Alerts/alerter_main.py lines 498-506): insert into the
per-rule set and persist the whole set. -/
def markFired (seen : Finset String) (mid : String) : Finset String :=
  insert mid seen

/-- Any sequence of markFired operations on one rule's seen-set. -/
def runMarks (seen : Finset String) (mids : List String) : Finset String :=
  mids.foldl markFired seen

/-- `Alert.safe_check` (src/Alerts/base_alert.py lines 93-115): return
`check(match)` unless it raises, in which case log and return None. -/
def safe_check (check : JModel.JObj → Except Unit (Option OU3.OUAlert))
    (m : JModel.JObj) : Option OU3.OUAlert :=
  match check m with
  | Except.ok r => r
  | Except.error _ => none

end Alerts

namespace Cache

open JModel

/-- The cache module constants (src/pure_json_fetch_cache.py lines 299-399):
TTL defaults to 86400 seconds and disk persistence is enabled. -/
structure CacheConfig where
  ttl : Nat := 86400
  disk_enabled : Bool := true

/-- The two cache tiers for teams plus a counter of network fetches
performed (the in-memory TTLCache stores (value, insertion time); newest
binding first, like the dict model). -/
structure TeamCacheState where
  mem : List (String × (JValue × Nat)) := []
  disk : List (String × (JValue × Nat)) := []
  fetchCount : Nat := 0

/-- Lookup in a cache tier: first binding wins. -/
def lookupT : List (String × (JValue × Nat)) → String → Option (JValue × Nat)
  | [], _ => none
  | (k1, e) :: rest, k => if k1 = k then some e else lookupT rest k

/-- Outcome of one `get_team_cache` call: the returned value, the new cache
state, whether `fetch_team_info` was invoked, and whether that invocation
(or the response unwrapping) raised — the caught-exception path that
returns an empty dict without caching. -/
structure GetResult where
  value : JValue
  state : TeamCacheState
  fetched : Bool
  fetchFailed : Bool

/-- The response unwrapping of get_team_cache (src/pure_json_fetch_cache.py
lines 588-596): `data_dict = serialize_for_json(data) if data else dict()`,
`res = data_dict.get("results") or []`, `team_data = res[0] if
isinstance(res, list) and res else dict()`; a non-dict response makes the
`.get` raise, which the surrounding broad except turns into the failure
path. -/
def extractTeamData (data : JValue) : Except Unit JValue :=
  let data_dict := if jTruthy data then data else JValue.obj []
  match data_dict with
  | JValue.obj o =>
    let res0 := (jget o "results").getD JValue.null
    let res := if jTruthy res0 then res0 else JValue.arr []
    Except.ok (match res with | JValue.arr (x :: _) => x | _ => JValue.obj [])
  | _ => Except.error ()

/-- The disk tier probe (src/pure_json_fetch_cache.py lines 571-578): only
when disk caching is enabled, and trusted only if
`time.time() - disk_ts <= _TTL`. -/
def diskLookup (cfg : CacheConfig) (s : TeamCacheState) (now : Nat) (tid : String) :
    Option (JValue × Nat) :=
  if cfg.disk_enabled then
    match lookupT s.disk tid with
    | some (dv, dts) => if now - dts ≤ cfg.ttl then some (dv, dts) else none
    | none => none
  else none

/-- The miss path of get_team_cache (src/pure_json_fetch_cache.py lines
570-613): promote a valid disk entry into memory, else fetch from the API,
unwrap, store in memory and (fire-and-forget, modelled as immediate)
persist to disk; any exception during the fetch returns an empty dict
WITHOUT caching. -/
def teamCacheMiss (cfg : CacheConfig) (s : TeamCacheState) (now : Nat) (tid : String)
    (oracle : Nat → Except Unit JValue) : GetResult :=
  match diskLookup cfg s now tid with
  | some (dv, _) => ⟨dv, { s with mem := (tid, (dv, now)) :: s.mem }, false, false⟩
  | none =>
    match oracle s.fetchCount with
    | Except.ok data =>
      match extractTeamData data with
      | Except.ok team_data =>
        ⟨team_data,
         { mem := (tid, (team_data, now)) :: s.mem,
           disk := if cfg.disk_enabled then (tid, (team_data, now)) :: s.disk else s.disk,
           fetchCount := s.fetchCount + 1 }, true, false⟩
      | Except.error _ =>
        ⟨JValue.obj [], { s with fetchCount := s.fetchCount + 1 }, true, true⟩
    | Except.error _ =>
      ⟨JValue.obj [], { s with fetchCount := s.fetchCount + 1 }, true, true⟩

/-- `get_team_cache` (src/pure_json_fetch_cache.py lines 552-613): the
empty/"unknown" sentinel short-circuits to an empty dict with no network
call; otherwise, under the per-kind lock, the memory tier is consulted
first (a TTLCache entry inserted at ts is live while now < ts + ttl) and a
memory hit returns immediately; `oracle n` is what the (n+1)-th
`fetch_team_info` call in this state's history would do. -/
def get_team_cache (cfg : CacheConfig) (s : TeamCacheState) (now : Nat) (tid : String)
    (oracle : Nat → Except Unit JValue) : GetResult :=
  if tid = "" ∨ tid = "unknown" then ⟨JValue.obj [], s, false, false⟩
  else
    match lookupT s.mem tid with
    | some (v, ts) =>
      if now < ts + cfg.ttl then ⟨v, s, false, false⟩
      else teamCacheMiss cfg s now tid oracle
    | none => teamCacheMiss cfg s now tid oracle

/-- A fetch oracle returning one team inside the results envelope. -/
def C8goodOracle : Nat → Except Unit JValue := fun _ =>
  Except.ok (JValue.obj [("results", JValue.arr [JValue.obj [("name", JValue.str "Arsenal")]])])

/-- A fetch oracle whose every call raises. -/
def C8badOracle : Nat → Except Unit JValue := fun _ => Except.error ()

/-- A first, successfully-fetching call on the empty cache at t=5. -/
def C8run1 : GetResult := get_team_cache {} {} 5 "t1" C8goodOracle

end Cache

/-! ## Lemmas and theorems -/

namespace NetRes

lemma cbCall_fail_closed_stays (cfg : CBConfig) (s : CBState) (now : Nat)
    (hs : s.state = CBStatus.closed)
    (hlt : s.failure_count + 1 < cfg.failure_threshold) :
    (cbCall cfg s now FuncOutcome.failure).1.state = CBStatus.closed ∧
      (cbCall cfg s now FuncOutcome.failure).1.failure_count = s.failure_count + 1 := by
  simp [cbCall, cbProceed, hs]
  split_ifs
  all_goals simp_all
  omega

lemma cbCall_fail_closed_opens (cfg : CBConfig) (s : CBState) (now : Nat)
    (hs : s.state = CBStatus.closed)
    (hge : cfg.failure_threshold ≤ s.failure_count + 1) :
    (cbCall cfg s now FuncOutcome.failure).1.state = CBStatus.opened ∧
      (cbCall cfg s now FuncOutcome.failure).1.last_failure_time = some now := by
  simp [cbCall, cbProceed, hs]
  split_ifs
  all_goals simp_all

lemma cbRun_fails_opens (cfg : CBConfig) :
    ∀ (ts : List Nat) (s : CBState), s.state = CBStatus.closed →
      s.failure_count + ts.length = cfg.failure_threshold → ts ≠ [] →
      (cbRun cfg s (ts.map (fun t => (t, FuncOutcome.failure)))).state = CBStatus.opened := by
  intro ts
  induction ts with
  | nil => intro s _ _ hne; exact absurd rfl hne
  | cons t rest ih =>
    intro s hs hlen _
    rcases rest with _ | ⟨t2, rest2⟩
    · have hge : cfg.failure_threshold ≤ s.failure_count + 1 := by
        simp at hlen; omega
      have h1 := cbCall_fail_closed_opens cfg s t hs hge
      simpa [cbRun] using h1.1
    · have hlt : s.failure_count + 1 < cfg.failure_threshold := by
        simp at hlen ⊢; omega
      have h1 := cbCall_fail_closed_stays cfg s t hs hlt
      have h2 := ih (cbCall cfg s t FuncOutcome.failure).1 h1.1 (by simp at hlen ⊢; omega) (by simp)
      simpa [cbRun] using h2

lemma cbCall_open_rejects (cfg : CBConfig) (s : CBState) (t now : Nat) (o : FuncOutcome)
    (hs : s.state = CBStatus.opened) (ht : s.last_failure_time = some t)
    (hle : now - t ≤ cfg.recovery_timeout) :
    (cbCall cfg s now o).2 = CallResult.rejected ∧
      (cbCall cfg s now o).2.invoked = false ∧
      (cbCall cfg s now o).1.state = CBStatus.opened := by
  simp [cbCall, hs, ht, Nat.not_lt.mpr hle, CallResult.invoked]

lemma cbCall_open_recovers (cfg : CBConfig) (s : CBState) (t now : Nat) (o : FuncOutcome)
    (hs : s.state = CBStatus.opened) (ht : s.last_failure_time = some t)
    (hgt : cfg.recovery_timeout < now - t) (hmax : 0 < cfg.half_open_max_calls) :
    (cbCall cfg s now o).2.invoked = true := by
  cases o <;> simp [cbCall, cbProceed, hs, ht, hgt, Nat.not_le.mpr hmax, CallResult.invoked]

lemma cbCall_halfOpen_allows (cfg : CBConfig) (s : CBState) (now : Nat) (o : FuncOutcome)
    (hs : s.state = CBStatus.halfOpen) (hlt : s.half_open_calls < cfg.half_open_max_calls) :
    (cbCall cfg s now o).2.invoked = true := by
  cases o <;> simp [cbCall, cbProceed, hs, Nat.not_le.mpr hlt, CallResult.invoked]

lemma cbCall_halfOpen_rejects (cfg : CBConfig) (s : CBState) (now : Nat) (o : FuncOutcome)
    (hs : s.state = CBStatus.halfOpen) (hge : cfg.half_open_max_calls ≤ s.half_open_calls) :
    (cbCall cfg s now o).2 = CallResult.rejected := by
  simp [cbCall, cbProceed, hs, hge]

lemma cbCall_inv (cfg : CBConfig) (s : CBState) (now : Nat) (o : FuncOutcome)
    (h : CBInv s) : CBInv (cbCall cfg s now o).1 := by
  unfold CBInv at *
  cases hl : s.last_failure_time <;> cases o <;>
    simp [cbCall, cbProceed, hl] <;> split_ifs <;> simp_all <;> omega

lemma cbRun_inv (cfg : CBConfig) :
    ∀ (calls : List (Nat × FuncOutcome)) (s : CBState), CBInv s → CBInv (cbRun cfg s calls) := by
  intro calls
  induction calls with
  | nil => intro s h; simpa [cbRun] using h
  | cons c rest ih =>
    intro s h
    simpa [cbRun] using ih (cbCall cfg s c.1 c.2).1 (cbCall_inv cfg s c.1 c.2 h)

end NetRes

/-- C1 counterexample: with the default configuration
(failure_threshold=5, recovery_timeout=30, half_open_max_calls=3), after five
consecutive failures at t=0 the breaker is OPEN; a call at t=31 transitions it
to HALF_OPEN and is permitted, but a SECOND call at t=31 is permitted as well
(it is invoked and returns), contradicting the claim that exactly one trial
call is permitted after the recovery timeout elapses. -/
theorem C1_counterexample :
    (let cfg : NetRes.CBConfig := {} ;
     let s5 := NetRes.cbRun cfg NetRes.CBState.init (List.replicate 5 (0, NetRes.FuncOutcome.failure)) ;
     let r1 := NetRes.cbCall cfg s5 31 NetRes.FuncOutcome.success ;
     let r2 := NetRes.cbCall cfg r1.1 31 NetRes.FuncOutcome.success ;
     s5.state = NetRes.CBStatus.opened ∧ r1.1.state = NetRes.CBStatus.halfOpen ∧
       r1.2 = NetRes.CallResult.returned ∧ r2.2 = NetRes.CallResult.returned ∧
       r2.2.invoked = true) := by
  decide

/-- C1 (amended): starting from CLOSED, after `failure_threshold` consecutive
failing calls the breaker is OPEN; while OPEN and within `recovery_timeout`
of the last failure a call raises the circuit-open error without invoking the
wrapped function; once more than `recovery_timeout` seconds have elapsed the
breaker transitions to HALF_OPEN and the trial call is permitted, and in
HALF_OPEN up to `half_open_max_calls` trial calls are permitted (calls beyond
that are rejected) — not exactly one. -/
theorem C1_amended :
    (∀ (cfg : NetRes.CBConfig) (ts : List Nat),
        ts.length = cfg.failure_threshold → ts ≠ [] →
        (NetRes.cbRun cfg NetRes.CBState.init
          (ts.map (fun t => (t, NetRes.FuncOutcome.failure)))).state = NetRes.CBStatus.opened)
  ∧ (∀ (cfg : NetRes.CBConfig) (s : NetRes.CBState) (t now : Nat) (o : NetRes.FuncOutcome),
        s.state = NetRes.CBStatus.opened → s.last_failure_time = some t →
        now - t ≤ cfg.recovery_timeout →
        (NetRes.cbCall cfg s now o).2 = NetRes.CallResult.rejected ∧
          (NetRes.cbCall cfg s now o).2.invoked = false)
  ∧ (∀ (cfg : NetRes.CBConfig) (s : NetRes.CBState) (t now : Nat) (o : NetRes.FuncOutcome),
        s.state = NetRes.CBStatus.opened → s.last_failure_time = some t →
        cfg.recovery_timeout < now - t → 0 < cfg.half_open_max_calls →
        (NetRes.cbCall cfg s now o).2.invoked = true)
  ∧ (∀ (cfg : NetRes.CBConfig) (s : NetRes.CBState) (now : Nat) (o : NetRes.FuncOutcome),
        s.state = NetRes.CBStatus.halfOpen →
        (s.half_open_calls < cfg.half_open_max_calls →
          (NetRes.cbCall cfg s now o).2.invoked = true) ∧
        (cfg.half_open_max_calls ≤ s.half_open_calls →
          (NetRes.cbCall cfg s now o).2 = NetRes.CallResult.rejected)) := by
  refine ⟨?_, ?_, ?_, ?_⟩
  · intro cfg ts hlen hne
    exact NetRes.cbRun_fails_opens cfg ts NetRes.CBState.init rfl (by simpa [NetRes.CBState.init] using hlen) hne
  · intro cfg s t now o hs ht hle
    exact ⟨(NetRes.cbCall_open_rejects cfg s t now o hs ht hle).1,
           (NetRes.cbCall_open_rejects cfg s t now o hs ht hle).2.1⟩
  · intro cfg s t now o hs ht hgt hmax
    exact NetRes.cbCall_open_recovers cfg s t now o hs ht hgt hmax
  · intro cfg s now o hs
    exact ⟨fun hlt => NetRes.cbCall_halfOpen_allows cfg s now o hs hlt,
           fun hge => NetRes.cbCall_halfOpen_rejects cfg s now o hs hge⟩

/-- C1 witness: the amended theorem applied at concrete inputs — the default
configuration, five failures at t=0, a rejected call at t=10, a permitted
trial call at t=31, and the HALF_OPEN capacity bound at a concrete state. -/
theorem C1_amended_witness :
    ((NetRes.cbRun ({} : NetRes.CBConfig) NetRes.CBState.init
        (([0, 0, 0, 0, 0] : List Nat).map (fun t => (t, NetRes.FuncOutcome.failure)))).state
      = NetRes.CBStatus.opened)
  ∧ ((NetRes.cbCall ({} : NetRes.CBConfig)
        { state := NetRes.CBStatus.opened, failure_count := 5, last_failure_time := some 0,
          total_calls := 5, failed_calls := 5 } 10 NetRes.FuncOutcome.success).2
      = NetRes.CallResult.rejected)
  ∧ ((NetRes.cbCall ({} : NetRes.CBConfig)
        { state := NetRes.CBStatus.opened, failure_count := 5, last_failure_time := some 0,
          total_calls := 5, failed_calls := 5 } 31 NetRes.FuncOutcome.success).2.invoked = true)
  ∧ ((NetRes.cbCall ({} : NetRes.CBConfig)
        { state := NetRes.CBStatus.halfOpen, half_open_calls := 3,
          total_calls := 8 } 40 NetRes.FuncOutcome.success).2 = NetRes.CallResult.rejected) :=
  ⟨C1_amended.1 {} [0, 0, 0, 0, 0] (by decide) (by decide),
   (C1_amended.2.1 {} _ 0 10 NetRes.FuncOutcome.success rfl rfl (by decide)).1,
   C1_amended.2.2.1 {} _ 0 31 NetRes.FuncOutcome.success rfl rfl (by decide) (by decide),
   (C1_amended.2.2.2 {} _ 40 NetRes.FuncOutcome.success rfl).2 (by decide)⟩

/-- C10: after every completed invocation of the circuit breaker's `call` —
whether it returns the result, re-raises the wrapped function's exception, or
raises the circuit-open rejection — the observability counters satisfy
total_calls = successful_calls + failed_calls: the invariant holds after any
sequence of calls starting from the freshly initialized breaker. -/
theorem C10_counter_invariant (cfg : NetRes.CBConfig)
    (calls : List (Nat × NetRes.FuncOutcome)) :
    NetRes.CBInv (NetRes.cbRun cfg NetRes.CBState.init calls) :=
  NetRes.cbRun_inv cfg calls NetRes.CBState.init rfl

/-- C6 counterexample: with the default `RetryConfig` (max_retries=3) and an
attempt that always raises an allow-listed exception, `_fetch_with_retry`
makes 4 attempts in total (the loop runs while `attempt <= max_retries` and
re-raises only when the incremented attempt count exceeds it, as its own log
line `attempt/{max_retries + 1}` records) — not at most 3 as claimed. -/
theorem C6_counterexample :
    NetRes.fetch_with_retry {} (fun _ => NetRes.FetchOutcome.retriable) =
        NetRes.RetryResult.raisedRetriable 4 ∧
      ¬ (NetRes.fetch_with_retry {} (fun _ => NetRes.FetchOutcome.retriable)).attempts ≤ 3 := by
  decide

/-- C6 (amended): with the default configuration, an allow-listed exception
is retried up to a total of max_retries + 1 = 4 attempts, after which the
last exception is re-raised; a non-allow-listed exception at any attempt k
propagates immediately as the k-th attempt with no further attempt; and no
run ever makes more than 4 attempts. -/
theorem C6_amended :
    (∀ oracle : Nat → NetRes.FetchOutcome,
        (∀ n, oracle n = NetRes.FetchOutcome.retriable) →
        NetRes.fetch_with_retry {} oracle = NetRes.RetryResult.raisedRetriable 4)
  ∧ (∀ (oracle : Nat → NetRes.FetchOutcome) (k : Nat), 1 ≤ k → k ≤ 4 →
        (∀ j, 1 ≤ j → j < k → oracle j = NetRes.FetchOutcome.retriable) →
        oracle k = NetRes.FetchOutcome.nonRetriable →
        NetRes.fetch_with_retry {} oracle = NetRes.RetryResult.raisedNonRetriable k)
  ∧ (∀ oracle : Nat → NetRes.FetchOutcome,
        (NetRes.fetch_with_retry {} oracle).attempts ≤ 4) := by
  refine ⟨?_, ?_, ?_⟩
  · intro oracle h
    simp [NetRes.fetch_with_retry, NetRes.fetchLoop, h 1, h 2, h 3, h 4]
  · intro oracle k hk1 hk hr hn
    interval_cases k
    · simp [NetRes.fetch_with_retry, NetRes.fetchLoop, hn]
    · simp [NetRes.fetch_with_retry, NetRes.fetchLoop, hn, hr 1 (by omega) (by omega)]
    · simp [NetRes.fetch_with_retry, NetRes.fetchLoop, hn,
        hr 1 (by omega) (by omega), hr 2 (by omega) (by omega)]
    · simp [NetRes.fetch_with_retry, NetRes.fetchLoop, hn,
        hr 1 (by omega) (by omega), hr 2 (by omega) (by omega), hr 3 (by omega) (by omega)]
  · intro oracle
    rcases h1 : oracle 1 <;> rcases h2 : oracle 2 <;> rcases h3 : oracle 3 <;> rcases h4 : oracle 4 <;>
      simp [NetRes.fetch_with_retry, NetRes.fetchLoop, h1, h2, h3, h4, NetRes.RetryResult.attempts]

/-- C6 witness: the amended theorem applied to a concrete always-retriable
oracle and to a concrete oracle whose second attempt raises a
non-allow-listed exception. -/
theorem C6_amended_witness :
    NetRes.fetch_with_retry {} (fun _ => NetRes.FetchOutcome.retriable) =
        NetRes.RetryResult.raisedRetriable 4
  ∧ NetRes.fetch_with_retry {}
        (fun n => if n = 2 then NetRes.FetchOutcome.nonRetriable else NetRes.FetchOutcome.retriable) =
      NetRes.RetryResult.raisedNonRetriable 2
  ∧ (NetRes.fetch_with_retry {} (fun _ => NetRes.FetchOutcome.retriable)).attempts ≤ 4 :=
  ⟨C6_amended.1 (fun _ => NetRes.FetchOutcome.retriable) (fun _ => rfl),
   C6_amended.2.1 (fun n => if n = 2 then NetRes.FetchOutcome.nonRetriable else NetRes.FetchOutcome.retriable)
     2 (by decide) (by decide)
     (by intro j hj1 hj2; simp [show j ≠ 2 by omega]) (by simp),
   C6_amended.2.2 (fun _ => NetRes.FetchOutcome.retriable)⟩

namespace JModel

lemma jget_append (a b : JObj) (k : String) :
    jget (a ++ b) k = (jget a k).or (jget b k) := by
  induction a with
  | nil => simp [jget]
  | cons p rest ih =>
    rcases p with ⟨k1, v⟩
    by_cases h : k1 = k
    · simp [jget, h]
    · simp [jget, h, ih]

end JModel

/-- C4: whenever merge_match_data produces a record, the record's "id" is
the live payload's id (defaulting to "unknown"), its "competition_id" is
the resolved competition id passed in — both regardless of what the shallow
merge produced for those keys — and every other key not overwritten by the
enrichment steps resolves to the live payload's value when present there
and to the unwrapped detail envelope's value otherwise (live wins on
collision). -/
theorem C4_merge_precedence :
  ∀ (live detail odds : JModel.JObj)
    (tc cc cm : List (JModel.JValue × JModel.JValue)) (hid aid cid : JModel.JValue)
    (merged : JModel.JObj),
    JModel.merge_match_data live detail odds tc cc cm hid aid cid = Except.ok merged →
    JModel.jget merged "id" =
      some ((JModel.jget live "id").getD (JModel.JValue.str "unknown")) ∧
    JModel.jget merged "competition_id" = some cid ∧
    ∀ det, JModel.unwrap_results detail = JModel.JValue.obj det →
      ∀ k, k ≠ "id" → k ≠ "competition_id" → k ≠ "home_team" → k ≠ "away_team" →
        k ≠ "competition" → k ≠ "country" → k ≠ "odds" → k ≠ "status" →
        JModel.jget merged k = (JModel.jget live k).or (JModel.jget det k) := by
  intro live detail odds tc cc cm hid aid cid merged h
  unfold JModel.merge_match_data at h
  rcases hu : JModel.unwrap_results detail with _ | b | s | q | l | det0 <;> rw [hu] at h <;> simp only [] at h
  pick_goal 6
  · rcases hho : JModel.pyGet tc hid with e | ho <;> rw [hho] at h <;> simp only [] at h
    · exact absurd h (by simp)
    rcases h1 : JModel.extract_team_name (ho.getD (JModel.JValue.obj []))
      with e | ht <;> rw [h1] at h <;> simp only [] at h
    · exact absurd h (by simp)
    rcases hao : JModel.pyGet tc aid with e | ao <;> rw [hao] at h <;> simp only [] at h
    · exact absurd h (by simp)
    rcases h2 : JModel.extract_team_name (ao.getD (JModel.JValue.obj []))
      with e | at_ <;> rw [h2] at h <;> simp only [] at h
    · exact absurd h (by simp)
    rcases hco : JModel.pyGet cc cid with e | co <;> rw [hco] at h <;> simp only [] at h
    · exact absurd h (by simp)
    rcases h3 : JModel.extract_competition_info (co.getD (JModel.JValue.obj []))
      with e | ci <;> rw [h3] at h <;> simp only [] at h
    · exact absurd h (by simp)
    rcases hcv : JModel.pyGet cm ci.2 with e | cv <;> rw [hcv] at h <;> simp only [] at h
    · exact absurd h (by simp)
    rcases h4 : JModel.format_match_odds odds with e | fodds <;> rw [h4] at h <;> simp only [] at h
    · exact absurd h (by simp)
    rcases h5 : JModel.get_status_description
        ((JModel.jget (("odds", fodds) ::
          ("country", cv.getD (JModel.JValue.str "Unknown Country")) ::
          ("competition", ci.1) :: ("away_team", at_) :: ("home_team", ht) ::
          JModel.base_stamp live det0 cid) "status_id").getD JModel.JValue.null)
      with e | sd <;> rw [h5] at h <;> simp only [] at h
    · exact absurd h (by simp)
    simp only [Except.ok.injEq] at h
    subst h
    refine ⟨?_, ?_, ?_⟩
    · simp [JModel.jget, JModel.base_stamp]
    · simp [JModel.jget, JModel.base_stamp]
    · intro det hdet k hk1 hk2 hk3 hk4 hk5 hk6 hk7 hk8
      injection hdet with hdd
      subst hdd
      simp [JModel.jget, JModel.base_stamp, JModel.jget_append, hk1, hk2, hk3, hk4, hk5,
        hk6, hk7, hk8, Ne.symm hk1, Ne.symm hk2, Ne.symm hk3, Ne.symm hk4, Ne.symm hk5,
        Ne.symm hk6, Ne.symm hk7, Ne.symm hk8]
  all_goals exact absurd h (by simp)

/-- C4 witness: the precedence theorem applied to concrete live/detail
payloads sharing the key "k" — the merged record carries the live value for
"k", the detail-only value for "y", and the stamped id and competition id. -/
theorem C4_witness :
    JModel.jget JModel.C4merged "id" = some (JModel.JValue.str "m1") ∧
    JModel.jget JModel.C4merged "competition_id" = some (JModel.JValue.str "c1") ∧
    JModel.jget JModel.C4merged "k" = some (JModel.JValue.str "live") ∧
    JModel.jget JModel.C4merged "y" = some (JModel.JValue.num 5) := by
  have h := C4_merge_precedence JModel.C4live JModel.C4detail [] [] [] []
    (JModel.JValue.str "h") (JModel.JValue.str "a") (JModel.JValue.str "c1")
    JModel.C4merged rfl
  refine ⟨h.1, h.2.1, ?_, ?_⟩
  · exact h.2.2 [("k", JModel.JValue.str "det"), ("y", JModel.JValue.num 5)] rfl "k"
      (by decide) (by decide) (by decide) (by decide) (by decide) (by decide)
      (by decide) (by decide)
  · exact h.2.2 [("k", JModel.JValue.str "det"), ("y", JModel.JValue.num 5)] rfl "y"
      (by decide) (by decide) (by decide) (by decide) (by decide) (by decide)
      (by decide) (by decide)

/-- C5 counterexample: a team cache HIT whose cached object carries an
explicit null "name" flows through `extract_team_name` unchanged, so the
merged record's "home_team" field IS null — the claim's "non-null" invariant
fails (only absence is protected against, by the "Unknown ..." sentinels). -/
theorem C5_counterexample :
    (JModel.merge_match_data
        [("id", JModel.JValue.str "m1"), ("status_id", JModel.JValue.num 2)]
        [("results", JModel.JValue.arr [JModel.JValue.obj []])] []
        [(JModel.JValue.str "h", JModel.JValue.obj [("name", JModel.JValue.null)])] [] []
        (JModel.JValue.str "h") (JModel.JValue.str "a") (JModel.JValue.str "c")).map
      (fun m => JModel.jget m "home_team") = Except.ok (some JModel.JValue.null) := rfl

/-- C5 (amended): every record produced by merge_match_data has
"home_team", "away_team", "competition", "country" and "status" keys
present; on a cache or map MISS they hold the explicit sentinels
"Unknown Team" / "Unknown Competition" / "Unknown Country"; the "status"
field is the fixed table's image of the record's status_id, where a
HASHABLE status code outside the 1/2/3 table maps to "Unknown status"
rather than raising, while an unhashable (list- or dict-valued) code makes
the dict lookup raise TypeError; and a cache hit whose object itself
carries a null name passes the null through, so the fields are present yet
not necessarily non-null. -/
theorem C5_amended :
  (∀ (live detail odds : JModel.JObj)
      (tc cc cm : List (JModel.JValue × JModel.JValue)) (hid aid cid : JModel.JValue)
      (merged : JModel.JObj),
    JModel.merge_match_data live detail odds tc cc cm hid aid cid = Except.ok merged →
      ((JModel.jget merged "home_team").isSome ∧ (JModel.jget merged "away_team").isSome ∧
       (JModel.jget merged "competition").isSome ∧ (JModel.jget merged "country").isSome ∧
       (JModel.jget merged "status").isSome)
    ∧ (JModel.pyGet tc hid = Except.ok none →
         JModel.jget merged "home_team" = some (JModel.JValue.str "Unknown Team"))
    ∧ (JModel.pyGet tc aid = Except.ok none →
         JModel.jget merged "away_team" = some (JModel.JValue.str "Unknown Team"))
    ∧ (JModel.pyGet cc cid = Except.ok none →
         JModel.jget merged "competition" = some (JModel.JValue.str "Unknown Competition") ∧
         (JModel.pyGet cm JModel.JValue.null = Except.ok none →
           JModel.jget merged "country" = some (JModel.JValue.str "Unknown Country")))
    ∧ (∀ co2 ci2, JModel.pyGet cc cid = Except.ok co2 →
         JModel.extract_competition_info (co2.getD (JModel.JValue.obj [])) = Except.ok ci2 →
         JModel.pyGet cm ci2.2 = Except.ok none →
         JModel.jget merged "country" = some (JModel.JValue.str "Unknown Country"))
    ∧ (∀ sd, JModel.get_status_description
          ((JModel.jget merged "status_id").getD JModel.JValue.null) = Except.ok sd →
        JModel.jget merged "status" = some (JModel.JValue.str sd)))
  ∧ (∀ v, JModel.jhashable v = true →
       JModel.jvalEq v (JModel.JValue.num 1) = false →
       JModel.jvalEq v (JModel.JValue.num 2) = false →
       JModel.jvalEq v (JModel.JValue.num 3) = false →
       JModel.get_status_description v = Except.ok "Unknown status")
  ∧ (∀ v, JModel.jhashable v = false →
       JModel.get_status_description v = Except.error ()) := by
  refine ⟨?_, ?_, ?_⟩
  · intro live detail odds tc cc cm hid aid cid merged h
    unfold JModel.merge_match_data at h
    rcases hu : JModel.unwrap_results detail with _ | b | s | q | l | det0 <;> rw [hu] at h <;> simp only [] at h
    pick_goal 6
    · rcases hho : JModel.pyGet tc hid with e | ho <;> rw [hho] at h <;> simp only [] at h
      · exact absurd h (by simp)
      rcases h1 : JModel.extract_team_name (ho.getD (JModel.JValue.obj []))
        with e | ht <;> rw [h1] at h <;> simp only [] at h
      · exact absurd h (by simp)
      rcases hao : JModel.pyGet tc aid with e | ao <;> rw [hao] at h <;> simp only [] at h
      · exact absurd h (by simp)
      rcases h2 : JModel.extract_team_name (ao.getD (JModel.JValue.obj []))
        with e | at_ <;> rw [h2] at h <;> simp only [] at h
      · exact absurd h (by simp)
      rcases hco : JModel.pyGet cc cid with e | co <;> rw [hco] at h <;> simp only [] at h
      · exact absurd h (by simp)
      rcases h3 : JModel.extract_competition_info (co.getD (JModel.JValue.obj []))
        with e | ci <;> rw [h3] at h <;> simp only [] at h
      · exact absurd h (by simp)
      rcases hcv : JModel.pyGet cm ci.2 with e | cv <;> rw [hcv] at h <;> simp only [] at h
      · exact absurd h (by simp)
      rcases h4 : JModel.format_match_odds odds with e | fodds <;> rw [h4] at h <;> simp only [] at h
      · exact absurd h (by simp)
      rcases h5 : JModel.get_status_description
          ((JModel.jget (("odds", fodds) ::
            ("country", cv.getD (JModel.JValue.str "Unknown Country")) ::
            ("competition", ci.1) :: ("away_team", at_) :: ("home_team", ht) ::
            JModel.base_stamp live det0 cid) "status_id").getD JModel.JValue.null)
        with e | sd <;> rw [h5] at h <;> simp only [] at h
      · exact absurd h (by simp)
      simp only [Except.ok.injEq] at h
      subst h
      refine ⟨⟨?_, ?_, ?_, ?_, ?_⟩, ?_, ?_, ?_, ?_, ?_⟩
      · simp [JModel.jget]
      · simp [JModel.jget]
      · simp [JModel.jget]
      · simp [JModel.jget]
      · simp [JModel.jget]
      · intro hmiss
        injection hmiss with hh
        subst hh
        simp [JModel.extract_team_name, JModel.jget] at h1
        simp [JModel.jget, h1]
      · intro hmiss
        injection hmiss with hh
        subst hh
        simp [JModel.extract_team_name, JModel.jget] at h2
        simp [JModel.jget, h2]
      · intro hmiss
        injection hmiss with hh
        subst hh
        simp [JModel.extract_competition_info, JModel.jget] at h3
        subst h3
        have hcv2 : JModel.pyGet cm JModel.JValue.null = Except.ok cv := hcv
        constructor
        · simp [JModel.jget]
        · intro hcm
          rw [hcv2] at hcm
          injection hcm with hh2
          subst hh2
          simp [JModel.jget]
      · intro co2 ci2 hco2 hci2 hcm
        injection hco2 with hh
        subst hh
        rw [h3] at hci2
        injection hci2 with hh2
        subst hh2
        rw [hcv] at hcm
        injection hcm with hh3
        subst hh3
        simp [JModel.jget]
      · intro sd2 hsd2
        have hkey : JModel.jget (("status", JModel.JValue.str sd) ::
            ("odds", fodds) ::
            ("country", cv.getD (JModel.JValue.str "Unknown Country")) ::
            ("competition", ci.1) :: ("away_team", at_) :: ("home_team", ht) ::
            JModel.base_stamp live det0 cid) "status_id" =
            JModel.jget (("odds", fodds) ::
            ("country", cv.getD (JModel.JValue.str "Unknown Country")) ::
            ("competition", ci.1) :: ("away_team", at_) :: ("home_team", ht) ::
            JModel.base_stamp live det0 cid) "status_id" := by
          simp [JModel.jget]
        rw [hkey, h5] at hsd2
        injection hsd2 with hh
        subst hh
        simp [JModel.jget]
    all_goals exact absurd h (by simp)
  · intro v hh h1 h2 h3
    simp [JModel.get_status_description, hh, h1, h2, h3]
  · intro v hh
    simp [JModel.get_status_description, hh]

/-- C5 witness: the amended theorem applied to a concrete merge with all
caches empty and hashable status code 7 — every enriched field holds its
sentinel, the status field is the table image "Unknown status", and an
unhashable (list-valued) status code makes the table lookup raise. -/
theorem C5_amended_witness :
    (JModel.jget JModel.C5merged "home_team").isSome ∧
    JModel.jget JModel.C5merged "home_team" = some (JModel.JValue.str "Unknown Team") ∧
    JModel.jget JModel.C5merged "away_team" = some (JModel.JValue.str "Unknown Team") ∧
    JModel.jget JModel.C5merged "competition" =
      some (JModel.JValue.str "Unknown Competition") ∧
    JModel.jget JModel.C5merged "country" = some (JModel.JValue.str "Unknown Country") ∧
    JModel.jget JModel.C5merged "status" = some (JModel.JValue.str "Unknown status") ∧
    JModel.get_status_description (JModel.JValue.num 7) = Except.ok "Unknown status" ∧
    JModel.get_status_description (JModel.JValue.arr []) = Except.error () := by
  have h := C5_amended.1 JModel.C5live
    [("results", JModel.JValue.arr [JModel.JValue.obj []])] [] [] [] []
    (JModel.JValue.str "h") (JModel.JValue.str "a") (JModel.JValue.str "c")
    JModel.C5merged rfl
  exact ⟨h.1.1, h.2.1 rfl, h.2.2.1 rfl, (h.2.2.2.1 rfl).1, (h.2.2.2.1 rfl).2 rfl,
    h.2.2.2.2.2 "Unknown status" rfl,
    C5_amended.2.1 (JModel.JValue.num 7) rfl rfl rfl rfl,
    C5_amended.2.2 (JModel.JValue.arr []) rfl⟩

/-- C2 counterexample: a first-half match (status 2) whose over/under
entries are listed oldest-first — 2.5 at t=100 before 4.0 at t=200 — with
threshold 3.0 yields NO alert (the code reads the FIRST entry bs[0], line
2.5, not the maximum-timestamp entry), and a match whose line exactly
equals the threshold DOES fire (the code compares value >= threshold, not
strictly greater). -/
theorem C2_counterexample :
    OU3.check 3 (OU3.mkCanonMatch (JModel.JValue.num 2)
        [JModel.JValue.arr [JModel.JValue.num 100, JModel.JValue.num 1,
           JModel.JValue.num 1, JModel.JValue.num (mkRat 5 2)],
         JModel.JValue.arr [JModel.JValue.num 200, JModel.JValue.num 1,
           JModel.JValue.num 1, JModel.JValue.num 4]]) = Except.ok none
  ∧ OU3.check 3 (OU3.mkCanonMatch (JModel.JValue.num 2)
        [JModel.JValue.arr [JModel.JValue.num 200, JModel.JValue.num 1,
           JModel.JValue.num 1, JModel.JValue.num 3]]) =
      Except.ok (some ⟨3, 3⟩) := ⟨rfl, rfl⟩

/-- C2 (amended): on a canonical match whose odds carry a bs list headed by
an entry of at least 4 numeric fields, OU3.check returns a non-null payload
iff the (possibly string-encoded) status code is in the live set {2, 3, 4}
AND the line value at index 3 of the FIRST bs entry is at least the
threshold; the payload's value is that first entry's line.  List position,
not timestamp, selects the quote, and the comparison is >= rather than
strictly greater. -/
theorem C2_amended : ∀ (th q : Rat) (e0 : List Rat) (rest : List JModel.JValue),
    4 ≤ e0.length →
    OU3.check th (OU3.mkCanonMatch (JModel.JValue.num q)
        (JModel.JValue.arr (e0.map JModel.JValue.num) :: rest)) =
      Except.ok (if (q = 2 ∨ q = 3 ∨ q = 4) ∧ th ≤ e0.getD 3 0
        then some ⟨e0.getD 3 0, th⟩ else none) := by
  intro th q e0 rest h4
  rcases e0 with _ | ⟨a, e0⟩
  · norm_num at h4
  rcases e0 with _ | ⟨b, e0⟩
  · norm_num at h4
  rcases e0 with _ | ⟨c, e0⟩
  · norm_num at h4
  rcases e0 with _ | ⟨d, tail⟩
  · norm_num at h4
  by_cases hl : q = 2 ∨ q = 3 ∨ q = 4
  · have hsl : OU3.statusLive (JModel.JValue.num q) = true := by
      rcases hl with h | h | h <;> simp [OU3.statusLive, JModel.jvalEq, JModel.jnum, h]
    simp [OU3.check, OU3.mkCanonMatch, JModel.jget, OU3.statusConvert, hsl,
      OU3.obj_fields, OU3.pyIterate, OU3.marketsLoop, OU3.bsExtract, JModel.jTruthy,
      OU3.pyLen, OU3.pyIndex, OU3.pyFloat, OU3.fireCheck, hl, List.getD, ge_iff_le]
  · have hsl : OU3.statusLive (JModel.JValue.num q) = false := by
      push_neg at hl
      simp [OU3.statusLive, JModel.jvalEq, JModel.jnum, beq_iff_eq, hl.1, hl.2.1, hl.2.2]
    simp [OU3.check, OU3.mkCanonMatch, JModel.jget, OU3.statusConvert, hsl, hl]

/-- C2 witness: the amended theorem applied to a first-half match whose
single bs entry is [200, 1, 1, 4] with threshold 3 — the alert fires with
line 4 (the first entry's index 3). -/
theorem C2_amended_witness :
    OU3.check 3 (OU3.mkCanonMatch (JModel.JValue.num 2)
        [JModel.JValue.arr ([(200 : Rat), 1, 1, 4].map JModel.JValue.num)]) =
      Except.ok (some ⟨4, 3⟩) := by
  have h := C2_amended 3 2 [200, 1, 1, 4] [] (by decide)
  simpa using h

namespace Alerts

lemma subset_runMarks : ∀ (mids : List String) (seen : Finset String),
    seen ⊆ runMarks seen mids := by
  intro mids
  induction mids with
  | nil => intro seen; simp [runMarks]
  | cons m rest ih =>
    intro seen
    have h1 : seen ⊆ markFired seen m := Finset.subset_insert m seen
    have h2 := ih (markFired seen m)
    simpa [runMarks] using h1.trans (by simpa [runMarks] using h2)

end Alerts

/-- C7: for every list of merged records, sort_by_status returns a
permutation of the input ordered by the position of the status code in the
fixed priority list; the decorated run is ordered by (key, original
position) — Python's stable sort — so records with equal keys keep their
original relative order; a recognized status keys strictly below the list
length and every unrecognized one keys exactly at it, hence sorts after
all recognized records. -/
theorem C7_stable_status_sort : ∀ ms : List JModel.JObj,
    (Orchestrate.sort_by_status ms).Perm ms
  ∧ (Orchestrate.sort_by_status ms).Pairwise
      (fun a b => Orchestrate.statusSortKey a ≤ Orchestrate.statusSortKey b)
  ∧ (Orchestrate.sort_by_status_decorated ms).Pairwise Orchestrate.sortRel
  ∧ (Orchestrate.sort_by_status_decorated ms).Perm ms.enum
  ∧ (∀ m : JModel.JObj, Orchestrate.statusRecognized m = true →
      Orchestrate.statusSortKey m < Orchestrate.DESIRED_STATUS_ORDER.length)
  ∧ (∀ m : JModel.JObj, Orchestrate.statusRecognized m = false →
      Orchestrate.statusSortKey m = Orchestrate.DESIRED_STATUS_ORDER.length) := by
  intro ms
  have hperm : (Orchestrate.sort_by_status_decorated ms).Perm ms.enum :=
    List.perm_insertionSort Orchestrate.sortRel ms.enum
  have hsorted : (Orchestrate.sort_by_status_decorated ms).Pairwise Orchestrate.sortRel :=
    List.sorted_insertionSort Orchestrate.sortRel ms.enum
  refine ⟨?_, ?_, hsorted, hperm, ?_, ?_⟩
  · have h := hperm.map Prod.snd
    simpa [Orchestrate.sort_by_status, List.enum_map_snd] using h
  · unfold Orchestrate.sort_by_status
    refine List.Pairwise.map Prod.snd ?_ hsorted
    intro a b hab
    rcases hab with h | h
    · exact Nat.le_of_lt h
    · exact Nat.le_of_eq h.1
  · intro m hrec
    unfold Orchestrate.statusSortKey
    rw [hrec]
    simp only [if_true]
    apply List.findIdx_lt_length.mpr
    unfold Orchestrate.statusRecognized at hrec
    simpa [List.any_eq_true] using hrec
  · intro m hrec
    unfold Orchestrate.statusSortKey
    simp [hrec]

/-- C7 witness: the sort theorem applied to a concrete one-record list, a
concrete record with recognized status "2" (string) and a concrete record
with unrecognized status 2 (number, never equal to the list's strings). -/
theorem C7_witness :
    (Orchestrate.sort_by_status [[("status_id", JModel.JValue.str "2")]]).Perm
      [[("status_id", JModel.JValue.str "2")]]
  ∧ Orchestrate.statusSortKey [("status_id", JModel.JValue.str "2")] <
      Orchestrate.DESIRED_STATUS_ORDER.length
  ∧ Orchestrate.statusSortKey [("status_id", JModel.JValue.num 2)] =
      Orchestrate.DESIRED_STATUS_ORDER.length := by
  have h := C7_stable_status_sort [[("status_id", JModel.JValue.str "2")]]
  exact ⟨h.1, h.2.2.2.2.1 [("status_id", JModel.JValue.str "2")] rfl,
    h.2.2.2.2.2 [("status_id", JModel.JValue.num 2)] rfl⟩

/-- C3: shouldFire holds exactly when the rule's check returned a (truthy)
non-null payload and the match id is not in that rule's fired-set; once
markFired has added the id, shouldFire for that (rule, match) pair is false
after any further sequence of markFired operations; and the per-rule
persisted set (the in-memory set _save_seen snapshots) only ever grows. -/
theorem C3_dedup_monotone :
    (∀ (seen : Finset String) (notice : Option OU3.OUAlert) (mid : String),
      Alerts.shouldFire seen notice mid = true ↔ notice ≠ none ∧ mid ∉ seen)
  ∧ (∀ (seen : Finset String) (mid : String) (notice : Option OU3.OUAlert)
        (mids : List String),
      Alerts.shouldFire (Alerts.runMarks (Alerts.markFired seen mid) mids) notice mid = false)
  ∧ (∀ (seen : Finset String) (mids : List String), seen ⊆ Alerts.runMarks seen mids) := by
  refine ⟨?_, ?_, fun seen mids => Alerts.subset_runMarks mids seen⟩
  · intro seen notice mid
    cases notice <;> simp [Alerts.shouldFire, Alerts.noticeTruthy]
  · intro seen mid notice mids
    have hmem : mid ∈ Alerts.runMarks (Alerts.markFired seen mid) mids :=
      Alerts.subset_runMarks mids (Alerts.markFired seen mid) (Finset.mem_insert_self mid seen)
    cases notice <;> simp [Alerts.shouldFire, Alerts.noticeTruthy, hmem]

/-- C3 witness: the dedup theorem at a concrete rule result and match id —
firing is allowed on the empty set, and after markFired (even followed by
marking another id) shouldFire for the same id is false. -/
theorem C3_witness :
    Alerts.shouldFire ∅ (some ⟨4, 3⟩) "m1" = true
  ∧ Alerts.shouldFire (Alerts.runMarks (Alerts.markFired ∅ "m1") ["m2"]) (some ⟨4, 3⟩) "m1"
      = false
  ∧ (∅ : Finset String) ⊆ Alerts.runMarks ∅ ["m1"] := by
  refine ⟨?_, C3_dedup_monotone.2.1 ∅ "m1" (some ⟨4, 3⟩) ["m2"],
    C3_dedup_monotone.2.2 ∅ ["m1"]⟩
  exact (C3_dedup_monotone.1 ∅ (some ⟨4, 3⟩) "m1").mpr ⟨by simp, by simp⟩

/-- C9: safe_check returns exactly what the rule's check returns when check
does not raise, returns None when check raises, and list evaluation over
rules is pointwise — the i-th result depends only on the i-th rule, so one
failing rule cannot affect any other rule's or match's evaluation. -/
theorem C9_safe_check :
    (∀ (check : JModel.JObj → Except Unit (Option OU3.OUAlert)) (m : JModel.JObj) r,
      check m = Except.ok r → Alerts.safe_check check m = r)
  ∧ (∀ (check : JModel.JObj → Except Unit (Option OU3.OUAlert)) (m : JModel.JObj) e,
      check m = Except.error e → Alerts.safe_check check m = none)
  ∧ (∀ (checks : List (JModel.JObj → Except Unit (Option OU3.OUAlert)))
        (m : JModel.JObj) (i : Nat),
      (checks.map (fun c => Alerts.safe_check c m))[i]? =
        checks[i]?.map (fun c => Alerts.safe_check c m)) := by
  refine ⟨?_, ?_, ?_⟩
  · intro check m r h
    simp [Alerts.safe_check, h]
  · intro check m e h
    simp [Alerts.safe_check, h]
  · intro checks m i
    simp [List.getElem?_map]

/-- C9 witness: the safe_check theorem applied to a concrete returning rule
and a concrete raising rule. -/
theorem C9_witness :
    Alerts.safe_check (fun _ => Except.ok (some ⟨4, 3⟩)) [] = some (⟨4, 3⟩ : OU3.OUAlert)
  ∧ Alerts.safe_check (fun _ => Except.error ()) [] = (none : Option OU3.OUAlert)
  ∧ (([fun _ => Except.error ()] :
        List (JModel.JObj → Except Unit (Option OU3.OUAlert))).map
      (fun c => Alerts.safe_check c []))[0]? =
      (([fun _ => Except.error ()] :
        List (JModel.JObj → Except Unit (Option OU3.OUAlert))))[0]?.map
        (fun c => Alerts.safe_check c []) :=
  ⟨C9_safe_check.1 (fun _ => Except.ok (some ⟨4, 3⟩)) [] (some ⟨4, 3⟩) rfl,
   C9_safe_check.2.1 (fun _ => Except.error ()) [] () rfl,
   C9_safe_check.2.2 [fun _ => Except.error ()] [] 0⟩

/-- C8 counterexample: when the first call's underlying fetch raises, the
call returns an empty dict WITHOUT populating the memory tier, so a second
call for the same valid id within the TTL performs another network fetch —
the claim's "no second network fetch" fails on the error path. -/
theorem C8_counterexample :
    (Cache.get_team_cache {} {} 0 "t1" Cache.C8badOracle).fetched = true
  ∧ (Cache.get_team_cache {}
      (Cache.get_team_cache {} {} 0 "t1" Cache.C8badOracle).state 0 "t1"
      Cache.C8badOracle).fetched = true := ⟨rfl, rfl⟩

/-- C8 (amended): for a valid id, whenever a get_team_cache call completes
without its fetch raising, the memory tier afterwards holds the returned
value under some timestamp; and any later call for that id while the entry
is within TTL is a pure memory hit — it returns the identical value,
performs no network fetch and leaves the state unchanged. -/
theorem C8_memory_hit :
    (∀ (cfg : Cache.CacheConfig) (s : Cache.TeamCacheState) (now : Nat) (tid : String)
        (oracle : Nat → Except Unit JModel.JValue),
      ¬(tid = "" ∨ tid = "unknown") →
      (Cache.get_team_cache cfg s now tid oracle).fetchFailed = false →
      ∃ ts, Cache.lookupT (Cache.get_team_cache cfg s now tid oracle).state.mem tid =
        some ((Cache.get_team_cache cfg s now tid oracle).value, ts))
  ∧ (∀ (cfg : Cache.CacheConfig) (s2 : Cache.TeamCacheState) (now2 : Nat) (tid : String)
        (oracle2 : Nat → Except Unit JModel.JValue) (v : JModel.JValue) (ts : Nat),
      ¬(tid = "" ∨ tid = "unknown") →
      Cache.lookupT s2.mem tid = some (v, ts) → now2 < ts + cfg.ttl →
      Cache.get_team_cache cfg s2 now2 tid oracle2 = ⟨v, s2, false, false⟩) := by
  constructor
  · intro cfg s now tid oracle hvalid hff
    unfold Cache.get_team_cache at *
    rw [if_neg hvalid] at *
    rcases hm : Cache.lookupT s.mem tid with _ | ⟨v, ts⟩ <;> simp only [hm] at hff ⊢
    · unfold Cache.teamCacheMiss at *
      rcases hd : Cache.diskLookup cfg s now tid with _ | ⟨dv, dts⟩ <;>
        simp only [hd] at hff ⊢
      · rcases ho : oracle s.fetchCount with e | data <;> simp only [ho] at hff ⊢
        · simp at hff
        · rcases he : Cache.extractTeamData data with e | td <;> simp only [he] at hff ⊢
          · simp at hff
          · exact ⟨now, by simp [Cache.lookupT]⟩
      · exact ⟨now, by simp [Cache.lookupT]⟩
    · by_cases ht : now < ts + cfg.ttl
      · simp only [if_pos ht]
        exact ⟨ts, by simpa using hm⟩
      · simp only [if_neg ht] at hff ⊢
        unfold Cache.teamCacheMiss at *
        rcases hd : Cache.diskLookup cfg s now tid with _ | ⟨dv, dts⟩ <;>
          simp only [hd] at hff ⊢
        · rcases ho : oracle s.fetchCount with e | data <;> simp only [ho] at hff ⊢
          · simp at hff
          · rcases he : Cache.extractTeamData data with e | td <;> simp only [he] at hff ⊢
            · simp at hff
            · exact ⟨now, by simp [Cache.lookupT]⟩
        · exact ⟨now, by simp [Cache.lookupT]⟩
  · intro cfg s2 now2 tid oracle2 v ts hvalid hmem htt
    unfold Cache.get_team_cache
    rw [if_neg hvalid]
    simp only [hmem, if_pos htt]

/-- C8 witness: the memory-hit theorem applied to a concrete run — a
successful fetch at t=5 populates the memory tier with the team object, and
a second call at t=10 (within the 86400s TTL, even against an
always-raising oracle) returns the identical value with no fetch and no
state change. -/
theorem C8_memory_hit_witness :
    (∃ ts, Cache.lookupT Cache.C8run1.state.mem "t1" = some (Cache.C8run1.value, ts))
  ∧ Cache.get_team_cache {} Cache.C8run1.state 10 "t1" Cache.C8badOracle =
      ⟨Cache.C8run1.value, Cache.C8run1.state, false, false⟩ :=
  ⟨C8_memory_hit.1 {} {} 5 "t1" Cache.C8goodOracle (by decide) rfl,
   C8_memory_hit.2 {} Cache.C8run1.state 10 "t1" Cache.C8badOracle
     Cache.C8run1.value 5 (by decide) rfl (by decide)⟩
